import Mathlib

/-!
Shallow embedding of `scripts/create_placeholder_icons.py` (the single source
file of this repository): a utility that draws placeholder app icons and
writes them into an Xcode appiconset directory.

The script's effectful surface is modelled explicitly:
* `Env` captures the machine the script runs on: whether the Pillow imaging
  library is importable, the directory containing the script, which font
  files exist, whether `ImageFont.truetype` succeeds on a given path/size,
  and the text bounding box the drawing backend reports.
* `FS` is a filesystem: a list of directories and an association list from
  file paths to saved images.
* Drawing is modelled symbolically: an `IconRender` records the canvas and
  the ordered list of draw calls issued for one icon.
* `runScript` models `python3 scripts/create_placeholder_icons.py`: the
  module-level `from PIL import Image, ImageDraw, ImageFont` (line 17) runs
  before anything else, so a missing Pillow aborts with an uncaught
  ImportError (traceback on stderr, exit status 1) and the friendly handler
  inside `main` (lines 92-97) never executes.
-/

namespace PlaceholderIcons

/-- RGBA color quadruple, as Pillow color tuples `(r, g, b, a)`. -/
structure RGBA where
  r : Nat
  g : Nat
  b : Nat
  a : Nat
deriving DecidableEq

/-- Text bounding box as returned by `draw.textbbox((0, 0), text, font=font)`:
left, top, right, bottom pixel coordinates (line 71). -/
structure BBox where
  x0 : Int
  y0 : Int
  x1 : Int
  y1 : Int
deriving DecidableEq

/-- A font value: either a truetype font loaded from a path at a pixel size
(`ImageFont.truetype(font_path, font_size)`, line 52) or the built-in default
bitmap font (`ImageFont.load_default()`, lines 56/59/62). -/
inductive Font where
  | truetype (path : String) (fontSize : Nat)
  | default
deriving DecidableEq

/-- Python exception kinds the script can meet. -/
inductive PyError where
  | importError
  | osError
  | ioError
  | fileExistsError
deriving DecidableEq

/-- Exceptions `ImageFont.truetype` can raise: `OSError`/`IOError` when the
file cannot be read or parsed, `ImportError` when the FreeType binding is
absent.  These are exactly the kinds the `except` clauses at lines 58 and 61
are written for. -/
inductive FontLoadError where
  | osError
  | ioError
  | importError
deriving DecidableEq

/-- Embed a font-loading exception into the general exception type. -/
def FontLoadError.toPyError : FontLoadError → PyError
  | .osError => .osError
  | .ioError => .ioError
  | .importError => .importError

/-- One drawing call issued against the canvas: the border rectangle
(line 29) or a text draw (lines 81-82). -/
inductive DrawOp where
  | rectangle (x0 y0 x1 y1 : Int) (outline : RGBA) (width : Nat)
  | text (x y : Int) (s : String) (fill : RGBA) (font : Font)
deriving DecidableEq

/-- The environment the script observes: Pillow availability, the script's
own directory (`os.path.dirname(os.path.abspath(__file__))`, line 111),
`os.path.exists` on font paths (line 51), whether `ImageFont.truetype`
raises on a path/size (line 52), and the text measurement backend
(line 71). -/
structure Env where
  pilInstalled : Bool
  scriptDir : String
  fontFileExists : String → Bool
  truetypeFails : String → Nat → Option FontLoadError
  textBBox : String → Font → BBox

/-- The hardcoded candidate font paths, in source order (lines 43-47). -/
def font_paths : List String :=
  ["/System/Library/Fonts/Helvetica.ttc",
   "/System/Library/Fonts/Arial.ttf",
   "/usr/share/fonts/truetype/liberation/LiberationSans-Regular.ttf"]

/-- Font pixel size chosen from the icon size (lines 34-39). -/
def font_size_for (size : Nat) : Nat :=
  if 128 ≤ size then size / 8
  else if 64 ≤ size then size / 6
  else size / 4

/-- The loop at lines 49-56: walk `font_paths` in order, and on the first
path that exists call `ImageFont.truetype` (which may raise) and break; if
no path exists, load the default font.  A raise escapes the loop, so later
paths are not tried. -/
def tryLoadTruetype (env : Env) (fsz : Nat) : Except FontLoadError Font :=
  match font_paths.find? env.fontFileExists with
  | some p =>
    match env.truetypeFails p fsz with
    | some e => .error e
    | none => .ok (Font.truetype p fsz)
  | none => .ok Font.default

/-- The nested try/except of lines 32-62: the inner `except (OSError,
IOError)` (line 58) and the outer `except ImportError` (line 61) both fall
back to `ImageFont.load_default()`. -/
def selectFont (env : Env) (size : Nat) : Except PyError Font :=
  let inner : Except PyError Font :=
    match tryLoadTruetype env (font_size_for size) with
    | .ok f => .ok f
    | .error e =>
      if e.toPyError = .osError ∨ e.toPyError = .ioError then .ok Font.default
      else .error e.toPyError
  match inner with
  | .ok f => .ok f
  | .error e => if e = .importError then .ok Font.default else .error e

/-- The canvas and draw-call trace produced for one icon by
`create_placeholder_icon` (lines 20-82), before saving. -/
structure IconRender where
  width : Nat
  height : Nat
  background : RGBA
  border_width : Nat
  text : String
  font : Font
  x : Int
  y : Int
  shadow_offset : Nat
  ops : List DrawOp
deriving DecidableEq

/-- Drawing body of `create_placeholder_icon` (lines 24-82), given the font
that the try/except block selected: background canvas, border rectangle,
label text choice, bounding-box measurement, centering, shadow and white
text. -/
def renderIcon (env : Env) (size : Nat) (font : Font) : IconRender :=
  let border_width := max 1 (size / 64)
  let rectOp := DrawOp.rectangle 0 0 ((size : Int) - 1) ((size : Int) - 1)
      ⟨30, 90, 200, 255⟩ border_width
  let text := if 64 ≤ size then "OR" else "O"
  let bbox := env.textBBox text font
  let text_width := bbox.x1 - bbox.x0
  let text_height := bbox.y1 - bbox.y0
  let x := ((size : Int) - text_width).fdiv 2
  let y := ((size : Int) - text_height).fdiv 2
  let shadow_offset := max 1 (size / 128)
  let shadowOps :=
    if shadow_offset > 0 then
      [DrawOp.text (x + shadow_offset) (y + shadow_offset) text ⟨0, 0, 0, 100⟩ font]
    else []
  { width := size, height := size, background := ⟨52, 120, 246, 255⟩,
    border_width := border_width, text := text, font := font, x := x, y := y,
    shadow_offset := shadow_offset,
    ops := rectOp :: shadowOps ++ [DrawOp.text x y text ⟨255, 255, 255, 255⟩ font] }

/-- Replace the value stored under a path, keeping its position, or append
the pair if the path is absent: the effect of `img.save(output_path)` on an
existing or fresh file. -/
def setFile : List (String × IconRender) → String → IconRender → List (String × IconRender)
  | [], k, v => [(k, v)]
  | (k', v') :: rest, k, v =>
    if k' = k then (k, v) :: rest else (k', v') :: setFile rest k v

/-- Look up the image saved under a path. -/
def lookupF : List (String × IconRender) → String → Option IconRender
  | [], _ => none
  | (k', v') :: rest, k => if k' = k then some v' else lookupF rest k

/-- Filesystem state: existing directories and saved files. -/
structure FS where
  dirs : List String
  files : List (String × IconRender)
deriving DecidableEq

/-- Save an image at a path (`img.save(output_path, 'PNG')`, line 85),
overwriting any existing file there. -/
def writeFile (fs : FS) (path : String) (r : IconRender) : FS :=
  { fs with files := setFile fs.files path r }

/-- Model of `os.makedirs(d, exist_ok=...)` (line 115): raises
`FileExistsError` when the directory exists and `exist_ok` is false. -/
def makedirs (fs : FS) (d : String) (exist_ok : Bool) : Except PyError FS :=
  if d ∈ fs.dirs then
    if exist_ok then .ok fs else .error .fileExistsError
  else .ok { fs with dirs := fs.dirs ++ [d] }

/-- The function `create_placeholder_icon(size, output_path)` (lines
20-86): select a font (any uncaught exception there would propagate),
render the icon, save it at `output_path`, and return the confirmation
line printed to stdout (line 86). -/
def create_placeholder_icon (env : Env) (size : Nat) (output_path : String)
    (fs : FS) : Except PyError (FS × String) :=
  match selectFont env size with
  | .error e => .error e
  | .ok font =>
    let r := renderIcon env size font
    .ok (writeFile fs output_path r,
      "Created " ++ toString size ++ "x" ++ toString size ++ " icon: " ++ output_path)

/-- The fixed list of `(size, filename)` pairs defined in `main`
(lines 100-108). -/
def icon_sizes : List (Nat × String) :=
  [(16, "icon_16x16.png"), (32, "icon_32x32.png"), (64, "icon_64x64.png"),
   (128, "icon_128x128.png"), (256, "icon_256x256.png"),
   (512, "icon_512x512.png"), (1024, "icon_1024x1024.png")]

/-- Model of `os.path.join` on two components (lines 112, 123). -/
def joinPath (a b : String) : String := a ++ "/" ++ b

/-- The output directory computed at line 112:
`os.path.join(script_dir, "..", "Orchard", "Assets.xcassets", "AppIcon.appiconset")`. -/
def app_icon_dir (scriptDir : String) : String :=
  joinPath (joinPath (joinPath (joinPath scriptDir "..") "Orchard") "Assets.xcassets")
    "AppIcon.appiconset"

/-- The loop at lines 122-124: for each `(size, filename)` in order, join
the output path and call `create_placeholder_icon`.  Returns the final
filesystem, the stdout lines printed by the calls, and the trace of
`(size, output_path)` invocations in call order. -/
def runIcons (env : Env) (dir : String) :
    List (Nat × String) → FS → Except PyError (FS × List String × List (Nat × String))
  | [], fs => .ok (fs, [], [])
  | (size, filename) :: rest, fs =>
    let output_path := joinPath dir filename
    match create_placeholder_icon env size output_path fs with
    | .error e => .error e
    | .ok (fs', msg) =>
      match runIcons env dir rest fs' with
      | .error e => .error e
      | .ok (fs'', msgs, calls) => .ok (fs'', msg :: msgs, (size, output_path) :: calls)

/-- Observable outcome of one process run: exit status, stdout lines,
final filesystem, and the trace of `create_placeholder_icon` invocations. -/
structure Outcome where
  exitCode : Nat
  stdout : List String
  fs : FS
  calls : List (Nat × String)
deriving DecidableEq

/-- The function `main()` (lines 88-130).  Its own `import PIL` guard
(lines 92-97) prints install instructions and exits with status 1 when
Pillow is missing; note `runScript` below shows this branch is unreachable
from the script entry point.  An uncaught exception from `makedirs` or the
icon loop terminates the process with a nonzero status. -/
def main (env : Env) (fs : FS) : Outcome :=
  if env.pilInstalled = false then
    { exitCode := 1,
      stdout := ["Error: Pillow library is required.",
                 "Install it with: pip install Pillow"],
      fs := fs, calls := [] }
  else
    let dir := app_icon_dir env.scriptDir
    match makedirs fs dir true with
    | .error _ => { exitCode := 1, stdout := [], fs := fs, calls := [] }
    | .ok fs1 =>
      match runIcons env dir icon_sizes fs1 with
      | .error _ => { exitCode := 1, stdout := [], fs := fs1, calls := [] }
      | .ok (fs2, msgs, calls) =>
        { exitCode := 0,
          stdout := ["Generating placeholder app icons for Orchard...",
                     "Output directory: " ++ dir, ""] ++ msgs ++
                    ["", "✅ Placeholder icons generated successfully!", "",
                     "Your app should now build without icon errors.",
                     "To create proper app icons, see the ICON_GUIDE.md file."],
          fs := fs2, calls := calls }

/-- Running `python3 scripts/create_placeholder_icons.py`: the module-level
`from PIL import Image, ImageDraw, ImageFont` (line 17) executes before the
`if __name__ == "__main__": main()` guard (lines 132-133).  When Pillow is
not installed that import raises an uncaught `ImportError`: the interpreter
prints a traceback to stderr (nothing to stdout) and exits with status 1,
and `main` — including its friendly lines 95-96 — never runs. -/
def runScript (env : Env) (fs : FS) : Outcome :=
  if env.pilInstalled then main env fs
  else { exitCode := 1, stdout := [], fs := fs, calls := [] }

/-- A concrete machine with Pillow installed, no system fonts, and a fixed
text-measurement backend; used to instantiate universally quantified
theorems at a concrete input. -/
def sampleEnv : Env :=
  { pilInstalled := true
    scriptDir := "/repo/scripts"
    fontFileExists := fun _ => false
    truetypeFails := fun _ _ => none
    textBBox := fun _ _ => ⟨0, 0, 10, 12⟩ }

/-- A concrete machine with Pillow absent. -/
def envNoPil : Env :=
  { pilInstalled := false
    scriptDir := "/repo/scripts"
    fontFileExists := fun _ => false
    truetypeFails := fun _ _ => none
    textBBox := fun _ _ => ⟨0, 0, 10, 12⟩ }

/-- The empty filesystem. -/
def emptyFS : FS := ⟨[], []⟩

/-- The font the try/except block of lines 32-62 ends up with: the first
existing candidate path loaded at `font_size_for size` when that load
succeeds, the default font otherwise.  (`selectFont_eq` proves the
try/except block always produces exactly this font.) -/
def chosenFont (env : Env) (size : Nat) : Font :=
  match font_paths.find? env.fontFileExists with
  | some p =>
    if env.truetypeFails p (font_size_for size) = none then
      Font.truetype p (font_size_for size)
    else Font.default
  | none => Font.default

/-- The `(output path, rendered image)` pairs the loop at lines 122-124
writes, in loop order. -/
def iconWrites (env : Env) (dir : String) (specs : List (Nat × String)) :
    List (String × IconRender) :=
  specs.map fun p => (joinPath dir p.2, renderIcon env p.1 (chosenFont env p.1))

/-- Apply a list of file writes in order. -/
def writeAllF : List (String × IconRender) → FS → FS
  | [], fs => fs
  | (k, v) :: rest, fs => writeAllF rest (writeFile fs k v)

/-- The per-icon confirmation lines (line 86), in loop order. -/
def iconMsgs (dir : String) (specs : List (Nat × String)) : List String :=
  specs.map fun p =>
    "Created " ++ toString p.1 ++ "x" ++ toString p.1 ++ " icon: " ++ joinPath dir p.2

/-- The `(size, output_path)` trace of `create_placeholder_icon` calls, in
loop order. -/
def iconCalls (dir : String) (specs : List (Nat × String)) : List (Nat × String) :=
  specs.map fun p => (p.1, joinPath dir p.2)

/-- Filesystem effect of `os.makedirs(d, exist_ok=True)`: add the directory
when absent, leave the filesystem untouched when present. -/
def ensureDir (fs : FS) (d : String) : FS :=
  if d ∈ fs.dirs then fs else { fs with dirs := fs.dirs ++ [d] }

theorem selectFont_eq (env : Env) (size : Nat) :
    selectFont env size = .ok (chosenFont env size) := by
  unfold selectFont chosenFont tryLoadTruetype
  cases h : font_paths.find? env.fontFileExists with
  | none => simp
  | some p =>
    cases h2 : env.truetypeFails p (font_size_for size) with
    | none => simp [h2]
    | some e => cases e <;> simp [h2, FontLoadError.toPyError]

theorem create_placeholder_icon_eq (env : Env) (size : Nat) (output_path : String)
    (fs : FS) :
    create_placeholder_icon env size output_path fs =
      .ok (writeFile fs output_path (renderIcon env size (chosenFont env size)),
        "Created " ++ toString size ++ "x" ++ toString size ++ " icon: " ++ output_path) := by
  unfold create_placeholder_icon
  rw [selectFont_eq]

theorem lookupF_setFile_self (l : List (String × IconRender)) (k : String)
    (v : IconRender) : lookupF (setFile l k v) k = some v := by
  induction l with
  | nil => simp [setFile, lookupF]
  | cons p rest ih =>
    obtain ⟨k', v'⟩ := p
    by_cases h : k' = k
    · simp [setFile, lookupF, h]
    · simp [setFile, lookupF, h, ih]

theorem lookupF_writeFile_self (fs : FS) (p : String) (r : IconRender) :
    lookupF (writeFile fs p r).files p = some r :=
  lookupF_setFile_self fs.files p r

theorem create_file_render (env : Env) (size : Nat) (path : String) (fs fs' : FS)
    (out : String) (r : IconRender)
    (hc : create_placeholder_icon env size path fs = .ok (fs', out))
    (hr : lookupF fs'.files path = some r) :
    r = renderIcon env size (chosenFont env size) := by
  rw [create_placeholder_icon_eq] at hc
  simp only [Except.ok.injEq, Prod.mk.injEq] at hc
  obtain ⟨hfs, -⟩ := hc
  subst hfs
  rw [lookupF_writeFile_self] at hr
  exact (Option.some.inj hr).symm

theorem shadow_offset_pos (size : Nat) : 0 < max 1 (size / 128) :=
  Nat.lt_of_lt_of_le Nat.one_pos (le_max_left _ _)

theorem sub_two_fdiv_two_bounds (a : Int) :
    0 ≤ a - 2 * a.fdiv 2 ∧ a - 2 * a.fdiv 2 ≤ 1 := by
  rw [Int.fdiv_eq_ediv a (by norm_num)]
  omega

/-- Claim C1 (code-bug evidence): with Pillow absent, running the script
terminates with exit status 1 and creates no files, but prints nothing to
stdout — in particular not the install-instructions message that `main`'s
dead lines 95-96 would produce — because the module-level
`from PIL import ...` at line 17 raises before `main()` is ever entered. -/
theorem c1_missing_pillow_traceback (fs : FS) :
    runScript envNoPil fs = { exitCode := 1, stdout := [], fs := fs, calls := [] } :=
  rfl

/-- Claim C2: for every size, the icon written by `create_placeholder_icon`
carries the label text "OR" when `64 ≤ size` and "O" otherwise. -/
theorem c2_label_text (env : Env) (size : Nat) (path : String) (fs fs' : FS)
    (out : String) (r : IconRender)
    (hc : create_placeholder_icon env size path fs = .ok (fs', out))
    (hr : lookupF fs'.files path = some r) :
    r.text = if 64 ≤ size then "OR" else "O" := by
  obtain rfl := create_file_render env size path fs fs' out r hc hr
  rfl

/-- Claim C2 witness at size 16. -/
theorem c2_label_text_witness :
    create_placeholder_icon sampleEnv 16 "out.png" emptyFS =
      .ok (writeFile emptyFS "out.png" (renderIcon sampleEnv 16 Font.default),
        "Created 16x16 icon: out.png") ∧
    lookupF (writeFile emptyFS "out.png"
        (renderIcon sampleEnv 16 Font.default)).files "out.png" =
      some (renderIcon sampleEnv 16 Font.default) ∧
    (renderIcon sampleEnv 16 Font.default).text = if 64 ≤ 16 then "OR" else "O" :=
  ⟨rfl, rfl,
    c2_label_text sampleEnv 16 "out.png" emptyFS
      (writeFile emptyFS "out.png" (renderIcon sampleEnv 16 Font.default))
      "Created 16x16 icon: out.png"
      (renderIcon sampleEnv 16 Font.default) rfl rfl⟩

/-- Claim C3: the border rectangle of every generated icon is drawn with
width `max 1 (size / 64)`. -/
theorem c3_border_width (env : Env) (size : Nat) (path : String) (fs fs' : FS)
    (out : String) (r : IconRender)
    (hc : create_placeholder_icon env size path fs = .ok (fs', out))
    (hr : lookupF fs'.files path = some r) :
    r.border_width = max 1 (size / 64) ∧
    DrawOp.rectangle 0 0 ((size : Int) - 1) ((size : Int) - 1) ⟨30, 90, 200, 255⟩
      (max 1 (size / 64)) ∈ r.ops := by
  obtain rfl := create_file_render env size path fs fs' out r hc hr
  exact ⟨rfl, List.mem_cons_self _ _⟩

/-- Claim C3 witness at size 1024, where the border width is 16. -/
theorem c3_border_width_witness :
    create_placeholder_icon sampleEnv 1024 "out.png" emptyFS =
      .ok (writeFile emptyFS "out.png" (renderIcon sampleEnv 1024 Font.default),
        "Created 1024x1024 icon: out.png") ∧
    lookupF (writeFile emptyFS "out.png"
        (renderIcon sampleEnv 1024 Font.default)).files "out.png" =
      some (renderIcon sampleEnv 1024 Font.default) ∧
    max 1 (1024 / 64) = 16 ∧
    ((renderIcon sampleEnv 1024 Font.default).border_width = max 1 (1024 / 64) ∧
      DrawOp.rectangle 0 0 ((1024 : Int) - 1) ((1024 : Int) - 1) ⟨30, 90, 200, 255⟩
        (max 1 (1024 / 64)) ∈ (renderIcon sampleEnv 1024 Font.default).ops) :=
  ⟨rfl, rfl, by decide,
    c3_border_width sampleEnv 1024 "out.png" emptyFS
      (writeFile emptyFS "out.png" (renderIcon sampleEnv 1024 Font.default))
      "Created 1024x1024 icon: out.png"
      (renderIcon sampleEnv 1024 Font.default) rfl rfl⟩

/-- Claim C4: the shadow text of every generated icon is drawn offset from
the label position by `max 1 (size / 128)` in both coordinates, in
semi-transparent black. -/
theorem c4_shadow_offset (env : Env) (size : Nat) (path : String) (fs fs' : FS)
    (out : String) (r : IconRender)
    (hc : create_placeholder_icon env size path fs = .ok (fs', out))
    (hr : lookupF fs'.files path = some r) :
    r.shadow_offset = max 1 (size / 128) ∧
    DrawOp.text (r.x + (max 1 (size / 128) : Nat)) (r.y + (max 1 (size / 128) : Nat))
      r.text ⟨0, 0, 0, 100⟩ r.font ∈ r.ops := by
  obtain rfl := create_file_render env size path fs fs' out r hc hr
  refine ⟨rfl, ?_⟩
  simp only [renderIcon, if_pos (shadow_offset_pos size)]
  simp

/-- Claim C4 witness at size 1024, where the shadow offset is 8. -/
theorem c4_shadow_offset_witness :
    create_placeholder_icon sampleEnv 1024 "out.png" emptyFS =
      .ok (writeFile emptyFS "out.png" (renderIcon sampleEnv 1024 Font.default),
        "Created 1024x1024 icon: out.png") ∧
    lookupF (writeFile emptyFS "out.png"
        (renderIcon sampleEnv 1024 Font.default)).files "out.png" =
      some (renderIcon sampleEnv 1024 Font.default) ∧
    max 1 (1024 / 128) = 8 ∧
    ((renderIcon sampleEnv 1024 Font.default).shadow_offset = max 1 (1024 / 128) ∧
      DrawOp.text ((renderIcon sampleEnv 1024 Font.default).x + (max 1 (1024 / 128) : Nat))
        ((renderIcon sampleEnv 1024 Font.default).y + (max 1 (1024 / 128) : Nat))
        (renderIcon sampleEnv 1024 Font.default).text ⟨0, 0, 0, 100⟩
        (renderIcon sampleEnv 1024 Font.default).font ∈
        (renderIcon sampleEnv 1024 Font.default).ops) :=
  ⟨rfl, rfl, by decide,
    c4_shadow_offset sampleEnv 1024 "out.png" emptyFS
      (writeFile emptyFS "out.png" (renderIcon sampleEnv 1024 Font.default))
      "Created 1024x1024 icon: out.png"
      (renderIcon sampleEnv 1024 Font.default) rfl rfl⟩

/-- Claim C5: the font-selection block resolves to a truetype font at size
`size / 8` for `size ≥ 128`, `size / 6` for `64 ≤ size < 128`, and
`size / 4` below, loaded from the first existing path of the fixed list,
with the built-in default font substituted when no path exists or the load
fails — and it never raises. -/
theorem c5_font_selection (env : Env) (size : Nat) :
    selectFont env size =
      .ok (match font_paths.find? env.fontFileExists with
        | some p =>
          if env.truetypeFails p
              (if 128 ≤ size then size / 8
               else if 64 ≤ size then size / 6 else size / 4) = none then
            Font.truetype p
              (if 128 ≤ size then size / 8
               else if 64 ≤ size then size / 6 else size / 4)
          else Font.default
        | none => Font.default) := by
  rw [selectFont_eq]
  simp only [chosenFont, font_size_for]

/-- Claim C7: font-loading failures never escape `create_placeholder_icon`:
the font-selection block always returns a font, and the whole function
always succeeds, whatever fonts exist or fail to load. -/
theorem c7_font_errors_absorbed (env : Env) (size : Nat) (path : String) (fs : FS) :
    (∃ f, selectFont env size = .ok f) ∧
    ∃ fs' out, create_placeholder_icon env size path fs = .ok (fs', out) :=
  ⟨⟨chosenFont env size, selectFont_eq env size⟩,
    ⟨writeFile fs path (renderIcon env size (chosenFont env size)), _,
      create_placeholder_icon_eq env size path fs⟩⟩

/-- Claim C8: the label coordinates are computed from the measured text
bounding box as `((size - w).fdiv 2, (size - h).fdiv 2)` (Python floor
division), the white label is drawn there, and the resulting left/right
and top/bottom margins around the measured text box differ by at most one
pixel — the text is centered on the size × size canvas. -/
theorem c8_centered_text (env : Env) (size : Nat) (path : String) (fs fs' : FS)
    (out : String) (r : IconRender)
    (hc : create_placeholder_icon env size path fs = .ok (fs', out))
    (hr : lookupF fs'.files path = some r) :
    r.x = ((size : Int) - ((env.textBBox r.text r.font).x1 -
      (env.textBBox r.text r.font).x0)).fdiv 2 ∧
    r.y = ((size : Int) - ((env.textBBox r.text r.font).y1 -
      (env.textBBox r.text r.font).y0)).fdiv 2 ∧
    DrawOp.text r.x r.y r.text ⟨255, 255, 255, 255⟩ r.font ∈ r.ops ∧
    (0 ≤ ((size : Int) - ((env.textBBox r.text r.font).x1 -
        (env.textBBox r.text r.font).x0) - r.x) - r.x ∧
      ((size : Int) - ((env.textBBox r.text r.font).x1 -
        (env.textBBox r.text r.font).x0) - r.x) - r.x ≤ 1) ∧
    (0 ≤ ((size : Int) - ((env.textBBox r.text r.font).y1 -
        (env.textBBox r.text r.font).y0) - r.y) - r.y ∧
      ((size : Int) - ((env.textBBox r.text r.font).y1 -
        (env.textBBox r.text r.font).y0) - r.y) - r.y ≤ 1) := by
  obtain rfl := create_file_render env size path fs fs' out r hc hr
  have hx : (renderIcon env size (chosenFont env size)).x =
      ((size : Int) - ((env.textBBox (renderIcon env size (chosenFont env size)).text
        (renderIcon env size (chosenFont env size)).font).x1 -
       (env.textBBox (renderIcon env size (chosenFont env size)).text
        (renderIcon env size (chosenFont env size)).font).x0)).fdiv 2 := rfl
  have hy : (renderIcon env size (chosenFont env size)).y =
      ((size : Int) - ((env.textBBox (renderIcon env size (chosenFont env size)).text
        (renderIcon env size (chosenFont env size)).font).y1 -
       (env.textBBox (renderIcon env size (chosenFont env size)).text
        (renderIcon env size (chosenFont env size)).font).y0)).fdiv 2 := rfl
  refine ⟨hx, hy, ?_, ?_, ?_⟩
  · simp [renderIcon]
  · have h := sub_two_fdiv_two_bounds ((size : Int) -
      ((env.textBBox (renderIcon env size (chosenFont env size)).text
        (renderIcon env size (chosenFont env size)).font).x1 -
       (env.textBBox (renderIcon env size (chosenFont env size)).text
        (renderIcon env size (chosenFont env size)).font).x0))
    omega
  · have h := sub_two_fdiv_two_bounds ((size : Int) -
      ((env.textBBox (renderIcon env size (chosenFont env size)).text
        (renderIcon env size (chosenFont env size)).font).y1 -
       (env.textBBox (renderIcon env size (chosenFont env size)).text
        (renderIcon env size (chosenFont env size)).font).y0))
    omega

/-- Claim C10: for every size at least 1, the shadow offset is at least 1,
so the `if shadow_offset > 0` guard is true, the semi-transparent shadow is
drawn, and the draw trace has all three operations (the guard's false
branch, which would leave only two, is never taken). -/
theorem c10_shadow_always_drawn (env : Env) (size : Nat) (path : String)
    (fs fs' : FS) (out : String) (r : IconRender) (_hsize : 1 ≤ size)
    (hc : create_placeholder_icon env size path fs = .ok (fs', out))
    (hr : lookupF fs'.files path = some r) :
    1 ≤ r.shadow_offset ∧ r.ops.length = 3 ∧
    DrawOp.text (r.x + r.shadow_offset) (r.y + r.shadow_offset) r.text
      ⟨0, 0, 0, 100⟩ r.font ∈ r.ops := by
  obtain rfl := create_file_render env size path fs fs' out r hc hr
  refine ⟨le_max_left _ _, ?_, ?_⟩ <;>
    simp only [renderIcon, if_pos (shadow_offset_pos size)] <;> simp

/-- Claim C10 witness at size 16. -/
theorem c10_shadow_always_drawn_witness :
    (1 ≤ 16 ∧
      create_placeholder_icon sampleEnv 16 "out.png" emptyFS =
        .ok (writeFile emptyFS "out.png" (renderIcon sampleEnv 16 Font.default),
          "Created 16x16 icon: out.png") ∧
      lookupF (writeFile emptyFS "out.png"
          (renderIcon sampleEnv 16 Font.default)).files "out.png" =
        some (renderIcon sampleEnv 16 Font.default)) ∧
    (1 ≤ (renderIcon sampleEnv 16 Font.default).shadow_offset ∧
      (renderIcon sampleEnv 16 Font.default).ops.length = 3 ∧
      DrawOp.text ((renderIcon sampleEnv 16 Font.default).x +
          (renderIcon sampleEnv 16 Font.default).shadow_offset)
        ((renderIcon sampleEnv 16 Font.default).y +
          (renderIcon sampleEnv 16 Font.default).shadow_offset)
        (renderIcon sampleEnv 16 Font.default).text ⟨0, 0, 0, 100⟩
        (renderIcon sampleEnv 16 Font.default).font ∈
        (renderIcon sampleEnv 16 Font.default).ops) :=
  ⟨⟨by decide, rfl, rfl⟩,
    c10_shadow_always_drawn sampleEnv 16 "out.png" emptyFS
      (writeFile emptyFS "out.png" (renderIcon sampleEnv 16 Font.default))
      "Created 16x16 icon: out.png"
      (renderIcon sampleEnv 16 Font.default) (by decide) rfl rfl⟩

/-- Claim C8 witness at size 16 with the sample bounding box (0,0,10,12). -/
theorem c8_centered_text_witness :
    (create_placeholder_icon sampleEnv 16 "out.png" emptyFS =
        .ok (writeFile emptyFS "out.png" (renderIcon sampleEnv 16 Font.default),
          "Created 16x16 icon: out.png") ∧
      lookupF (writeFile emptyFS "out.png"
          (renderIcon sampleEnv 16 Font.default)).files "out.png" =
        some (renderIcon sampleEnv 16 Font.default)) ∧
    ((renderIcon sampleEnv 16 Font.default).x =
      ((16 : Int) - ((sampleEnv.textBBox (renderIcon sampleEnv 16 Font.default).text
          (renderIcon sampleEnv 16 Font.default).font).x1 -
        (sampleEnv.textBBox (renderIcon sampleEnv 16 Font.default).text
          (renderIcon sampleEnv 16 Font.default).font).x0)).fdiv 2 ∧
    (renderIcon sampleEnv 16 Font.default).y =
      ((16 : Int) - ((sampleEnv.textBBox (renderIcon sampleEnv 16 Font.default).text
          (renderIcon sampleEnv 16 Font.default).font).y1 -
        (sampleEnv.textBBox (renderIcon sampleEnv 16 Font.default).text
          (renderIcon sampleEnv 16 Font.default).font).y0)).fdiv 2 ∧
    DrawOp.text (renderIcon sampleEnv 16 Font.default).x
      (renderIcon sampleEnv 16 Font.default).y
      (renderIcon sampleEnv 16 Font.default).text ⟨255, 255, 255, 255⟩
      (renderIcon sampleEnv 16 Font.default).font ∈
      (renderIcon sampleEnv 16 Font.default).ops ∧
    (0 ≤ ((16 : Int) - ((sampleEnv.textBBox (renderIcon sampleEnv 16 Font.default).text
          (renderIcon sampleEnv 16 Font.default).font).x1 -
        (sampleEnv.textBBox (renderIcon sampleEnv 16 Font.default).text
          (renderIcon sampleEnv 16 Font.default).font).x0) -
        (renderIcon sampleEnv 16 Font.default).x) -
        (renderIcon sampleEnv 16 Font.default).x ∧
      ((16 : Int) - ((sampleEnv.textBBox (renderIcon sampleEnv 16 Font.default).text
          (renderIcon sampleEnv 16 Font.default).font).x1 -
        (sampleEnv.textBBox (renderIcon sampleEnv 16 Font.default).text
          (renderIcon sampleEnv 16 Font.default).font).x0) -
        (renderIcon sampleEnv 16 Font.default).x) -
        (renderIcon sampleEnv 16 Font.default).x ≤ 1) ∧
    (0 ≤ ((16 : Int) - ((sampleEnv.textBBox (renderIcon sampleEnv 16 Font.default).text
          (renderIcon sampleEnv 16 Font.default).font).y1 -
        (sampleEnv.textBBox (renderIcon sampleEnv 16 Font.default).text
          (renderIcon sampleEnv 16 Font.default).font).y0) -
        (renderIcon sampleEnv 16 Font.default).y) -
        (renderIcon sampleEnv 16 Font.default).y ∧
      ((16 : Int) - ((sampleEnv.textBBox (renderIcon sampleEnv 16 Font.default).text
          (renderIcon sampleEnv 16 Font.default).font).y1 -
        (sampleEnv.textBBox (renderIcon sampleEnv 16 Font.default).text
          (renderIcon sampleEnv 16 Font.default).font).y0) -
        (renderIcon sampleEnv 16 Font.default).y) -
        (renderIcon sampleEnv 16 Font.default).y ≤ 1)) :=
  ⟨⟨rfl, rfl⟩,
    c8_centered_text sampleEnv 16 "out.png" emptyFS
      (writeFile emptyFS "out.png" (renderIcon sampleEnv 16 Font.default))
      "Created 16x16 icon: out.png"
      (renderIcon sampleEnv 16 Font.default) rfl rfl⟩

theorem makedirs_exist_ok (fs : FS) (d : String) :
    makedirs fs d true = .ok (ensureDir fs d) := by
  unfold makedirs ensureDir
  split <;> rfl

theorem mem_ensureDir (fs : FS) (d : String) : d ∈ (ensureDir fs d).dirs := by
  unfold ensureDir
  split
  · assumption
  · simp

theorem ensureDir_eq_of_mem (fs : FS) (d : String) (h : d ∈ fs.dirs) :
    ensureDir fs d = fs := by
  unfold ensureDir
  rw [if_pos h]

theorem writeAllF_dirs (ps : List (String × IconRender)) (fs : FS) :
    (writeAllF ps fs).dirs = fs.dirs := by
  induction ps generalizing fs with
  | nil => rfl
  | cons p rest ih =>
    obtain ⟨k, v⟩ := p
    rw [writeAllF, ih]
    rfl

theorem lookupF_setFile_ne (l : List (String × IconRender)) (k k' : String)
    (v' : IconRender) (h : k ≠ k') :
    lookupF (setFile l k' v') k = lookupF l k := by
  induction l with
  | nil => simp [setFile, lookupF, Ne.symm h]
  | cons p rest ih =>
    obtain ⟨k0, v0⟩ := p
    by_cases h0 : k0 = k'
    · subst h0
      simp [setFile, lookupF, Ne.symm h]
    · simp only [setFile, if_neg h0, lookupF]
      by_cases h1 : k0 = k
      · simp [h1]
      · simp [h1, ih]

theorem setFile_eq_self (l : List (String × IconRender)) (k : String)
    (v : IconRender) (h : lookupF l k = some v) : setFile l k v = l := by
  induction l with
  | nil => simp [lookupF] at h
  | cons p rest ih =>
    obtain ⟨k0, v0⟩ := p
    by_cases h0 : k0 = k
    · subst h0
      have h' : v0 = v := by simpa [lookupF] using h
      subst h'
      simp [setFile]
    · simp only [lookupF, if_neg h0] at h
      simp [setFile, h0, ih h]

theorem lookupF_writeAllF_notMem (ps : List (String × IconRender)) (fs : FS)
    (k : String) (h : k ∉ ps.map Prod.fst) :
    lookupF (writeAllF ps fs).files k = lookupF fs.files k := by
  induction ps generalizing fs with
  | nil => rfl
  | cons p rest ih =>
    obtain ⟨k0, v0⟩ := p
    simp only [List.map_cons, List.mem_cons, not_or] at h
    obtain ⟨hk, hrest⟩ := h
    rw [writeAllF, ih _ hrest]
    exact lookupF_setFile_ne fs.files k k0 v0 hk

theorem lookupF_writeAllF_mem (ps : List (String × IconRender))
    (hnd : (ps.map Prod.fst).Nodup) (fs : FS) (k : String) (v : IconRender)
    (hmem : (k, v) ∈ ps) :
    lookupF (writeAllF ps fs).files k = some v := by
  induction ps generalizing fs with
  | nil => simp at hmem
  | cons p rest ih =>
    obtain ⟨k0, v0⟩ := p
    simp only [List.map_cons, List.nodup_cons] at hnd
    obtain ⟨hk0, hrest⟩ := hnd
    rcases List.mem_cons.mp hmem with heq | hmem'
    · obtain ⟨rfl, rfl⟩ := Prod.mk.injEq k v k0 v0 |>.mp heq
      rw [writeAllF, lookupF_writeAllF_notMem rest _ k hk0]
      exact lookupF_writeFile_self fs k v
    · exact ih hrest (writeFile fs k0 v0) hmem'

theorem writeFile_eq_self (fs : FS) (k : String) (v : IconRender)
    (h : lookupF fs.files k = some v) : writeFile fs k v = fs := by
  unfold writeFile
  rw [setFile_eq_self fs.files k v h]

theorem writeAllF_idem (ps : List (String × IconRender))
    (hnd : (ps.map Prod.fst).Nodup) (fs : FS) :
    writeAllF ps (writeAllF ps fs) = writeAllF ps fs := by
  induction ps generalizing fs with
  | nil => rfl
  | cons p rest ih =>
    obtain ⟨k, v⟩ := p
    simp only [List.map_cons, List.nodup_cons] at hnd
    obtain ⟨hk, hrest⟩ := hnd
    have hl : lookupF (writeAllF rest (writeFile fs k v)).files k = some v := by
      rw [lookupF_writeAllF_notMem rest _ k hk]
      exact lookupF_writeFile_self fs k v
    rw [writeAllF, writeAllF, writeFile_eq_self _ k v hl, ih hrest]

theorem joinPath_left_cancel (dir : String) {a b : String}
    (h : joinPath dir a = joinPath dir b) : a = b := by
  unfold joinPath at h
  have hd := congrArg String.data h
  simp only [String.data_append] at hd
  exact String.ext (List.append_cancel_left hd)

theorem iconWrites_keys (env : Env) (dir : String) (specs : List (Nat × String)) :
    (iconWrites env dir specs).map Prod.fst =
      (specs.map Prod.snd).map (joinPath dir) := by
  simp [iconWrites, List.map_map, Function.comp_def]

theorem iconWrites_keys_nodup (env : Env) (dir : String) :
    ((iconWrites env dir icon_sizes).map Prod.fst).Nodup := by
  rw [iconWrites_keys]
  refine List.Nodup.map (fun a b h => joinPath_left_cancel dir h) ?_
  decide

theorem runIcons_eq (env : Env) (dir : String) (specs : List (Nat × String)) :
    ∀ fs : FS, runIcons env dir specs fs =
      .ok (writeAllF (iconWrites env dir specs) fs, iconMsgs dir specs,
        iconCalls dir specs) := by
  induction specs with
  | nil => intro fs; rfl
  | cons p rest ih =>
    intro fs
    obtain ⟨size, filename⟩ := p
    simp only [runIcons, create_placeholder_icon_eq, ih, iconWrites, iconMsgs,
      iconCalls, List.map_cons, writeAllF]

theorem main_eq (env : Env) (fs : FS) (hpil : env.pilInstalled = true) :
    main env fs =
      { exitCode := 0,
        stdout := ["Generating placeholder app icons for Orchard...",
                   "Output directory: " ++ app_icon_dir env.scriptDir, ""] ++
                  iconMsgs (app_icon_dir env.scriptDir) icon_sizes ++
                  ["", "✅ Placeholder icons generated successfully!", "",
                   "Your app should now build without icon errors.",
                   "To create proper app icons, see the ICON_GUIDE.md file."],
        fs := writeAllF (iconWrites env (app_icon_dir env.scriptDir) icon_sizes)
          (ensureDir fs (app_icon_dir env.scriptDir)),
        calls := iconCalls (app_icon_dir env.scriptDir) icon_sizes } := by
  unfold main
  rw [hpil]
  simp only [Bool.true_eq_false, if_false, makedirs_exist_ok, runIcons_eq]

/-- Claim C6: `main` defines exactly the seven `(size, filename)` pairs
`icon_{s}x{s}.png` for s in 16..1024, invokes the generator once per pair in
list order with the output path joined onto the appiconset directory
computed from the script's location, and each of those files ends up
written with the corresponding rendered icon. -/
theorem c6_main_seven_icons (env : Env) (fs : FS)
    (hpil : env.pilInstalled = true) :
    icon_sizes = ([16, 32, 64, 128, 256, 512, 1024] : List Nat).map
      (fun s => (s, "icon_" ++ toString s ++ "x" ++ toString s ++ ".png")) ∧
    icon_sizes.length = 7 ∧
    (main env fs).calls = icon_sizes.map
      (fun p => (p.1, joinPath (app_icon_dir env.scriptDir) p.2)) ∧
    icon_sizes.map (fun p =>
        lookupF (main env fs).fs.files (joinPath (app_icon_dir env.scriptDir) p.2)) =
      icon_sizes.map (fun p => some (renderIcon env p.1 (chosenFont env p.1))) := by
  refine ⟨by decide, by decide, ?_, ?_⟩
  · rw [main_eq env fs hpil]
    rfl
  · rw [main_eq env fs hpil]
    rw [List.map_eq_map_iff]
    intro p hp
    exact lookupF_writeAllF_mem _ (iconWrites_keys_nodup env _) _ _ _
      (List.mem_map.mpr ⟨p, hp, rfl⟩)

/-- Claim C6 witness on a concrete machine and the empty filesystem. -/
theorem c6_main_seven_icons_witness :
    sampleEnv.pilInstalled = true ∧
    (icon_sizes = ([16, 32, 64, 128, 256, 512, 1024] : List Nat).map
        (fun s => (s, "icon_" ++ toString s ++ "x" ++ toString s ++ ".png")) ∧
      icon_sizes.length = 7 ∧
      (main sampleEnv emptyFS).calls = icon_sizes.map
        (fun p => (p.1, joinPath (app_icon_dir sampleEnv.scriptDir) p.2)) ∧
      icon_sizes.map (fun p =>
          lookupF (main sampleEnv emptyFS).fs.files
            (joinPath (app_icon_dir sampleEnv.scriptDir) p.2)) =
        icon_sizes.map (fun p =>
          some (renderIcon sampleEnv p.1 (chosenFont sampleEnv p.1)))) :=
  ⟨rfl, c6_main_seven_icons sampleEnv emptyFS rfl⟩

/-- Claim C9: when Pillow is installed, a run of `main` succeeds, and a
second run against the filesystem the first run produced succeeds with the
identical outcome: the directory-creation step accepts the existing
directory and every file is overwritten with the same content, leaving the
filesystem exactly as after one run. -/
theorem c9_idempotent (env : Env) (fs : FS) (hpil : env.pilInstalled = true) :
    (main env fs).exitCode = 0 ∧
    main env ((main env fs).fs) = main env fs := by
  refine ⟨by rw [main_eq env fs hpil], ?_⟩
  rw [main_eq env fs hpil, main_eq env _ hpil]
  simp only [Outcome.mk.injEq, and_true, true_and]
  have hmem : app_icon_dir env.scriptDir ∈
      (writeAllF (iconWrites env (app_icon_dir env.scriptDir) icon_sizes)
        (ensureDir fs (app_icon_dir env.scriptDir))).dirs := by
    rw [writeAllF_dirs]
    exact mem_ensureDir fs _
  rw [ensureDir_eq_of_mem _ _ hmem]
  exact writeAllF_idem _ (iconWrites_keys_nodup env _) _

/-- Claim C9 witness on a concrete machine and the empty filesystem. -/
theorem c9_idempotent_witness :
    sampleEnv.pilInstalled = true ∧
    ((main sampleEnv emptyFS).exitCode = 0 ∧
      main sampleEnv ((main sampleEnv emptyFS).fs) = main sampleEnv emptyFS) :=
  ⟨rfl, c9_idempotent sampleEnv emptyFS rfl⟩

end PlaceholderIcons
